import Mathlib

/-
Verification of the noise-field core of the RPS sketch (sketchToPerlin.js).

The sketch captures a freehand stroke, renders two independently offset
Perlin-noise dot grids (boards R and A), re-synthesizes the stroke displaced
by noise (board P), and re-synthesizes the A grid as a connected line drawing
(board B).  Coordinates are modelled as rationals; the host noise primitive
is kept abstract as a function argument, and the p5 map helper is modelled
from the specification.
-/

namespace RPS

/-- Canvas height, from createCanvas(1024, 1536). -/
def height : ℚ := 1536

/-- Noise x scale, from the source: let xScale = 0.015. -/
def xScale : ℚ := 15 / 1000

/-- Noise y scale, from the source: let yScale = 0.02. -/
def yScale : ℚ := 2 / 100

/-- Grid step, from the source: let gap = 20. -/
def gap : ℚ := 20

/-- A captured point, as pushed into the drawing array: {x: mouseX, y: mouseY}. -/
structure Point where
  x : ℚ
  y : ℚ
  deriving DecidableEq

/-- The mutable globals of the sketch that the claims concern: the two noise
offsets (offsetR, offsetA) and the captured drawing. -/
structure SketchState where
  offsetR : ℚ
  offsetA : ℚ
  drawing : List Point
  deriving DecidableEq

/-- Initial globals: offsetR = 100, offsetA = 200, drawing = []. -/
def initState : SketchState := { offsetR := 100, offsetA := 200, drawing := [] }

/-- Modelled from the spec: the p5 map helper (the lerp of the spec) is not part
of this repository; it is the unclamped linear interpolation taking value from
the range (start1, stop1) to the range (start2, stop2). -/
def mapRange (value start1 stop1 start2 stop2 : ℚ) : ℚ :=
  start2 + (stop2 - start2) * ((value - start1) / (stop1 - start1))

/-- Modelled from the spec: the NoiseField contract of the p5 noise primitive,
which is not part of this repository: every sample lies in the interval from 0
inclusive to 1 exclusive. -/
def NoiseInRange (noise : ℚ → ℚ → ℚ) : Prop :=
  ∀ x y : ℚ, 0 ≤ noise x y ∧ noise x y < 1

/-- Noise sample of dotGridR at a grid center:
noise((x + offsetR) * xScale, (y + offsetR) * yScale). -/
def dotGridRSample (noise : ℚ → ℚ → ℚ) (off x y : ℚ) : ℚ :=
  noise ((x + off) * xScale) ((y + off) * yScale)

/-- Noise sample of dotGridA at a grid center:
noise((x + offsetA) * xScale, (y + offsetA) * yScale). -/
def dotGridASample (noise : ℚ → ℚ → ℚ) (off x y : ℚ) : ℚ :=
  noise ((x + off) * xScale) ((y + off) * yScale)

/-- Noise sample of translateAToB at a grid center:
noise((x + offsetA) * xScale, (y + offsetA) * yScale). -/
def translateSample (noise : ℚ → ℚ → ℚ) (off x y : ℚ) : ℚ :=
  noise ((x + off) * xScale) ((y + off) * yScale)

/-- Noise sample of function f at a drawing point:
noise((pt.x + offsetR) * xScale, (pt.y + offsetR) * yScale). -/
def fSample (noise : ℚ → ℚ → ℚ) (off : ℚ) (p : Point) : ℚ :=
  noise ((p.x + off) * xScale) ((p.y + off) * yScale)

/-- Dot diameter from a noise value: diameter = noiseValue * gap. -/
def diameter (noiseValue : ℚ) : ℚ :=
  noiseValue * gap

/-- Per-point body of function f: one noise sample, one displacement added to
both coordinates (newX = pt.x + map(noiseValue, 0, 1, -10, 10), likewise newY). -/
def transformPoint (noise : ℚ → ℚ → ℚ) (off : ℚ) (p : Point) : Point :=
  let noiseValue := fSample noise off p
  let newX := p.x + mapRange noiseValue 0 1 (-10) 10
  let newY := p.y + mapRange noiseValue 0 1 (-10) 10
  { x := newX, y := newY }

/-- The point sequence computed by function f over the drawing array, in input
order (the data part of f; drawing segments between consecutive points is the
rendering part). -/
def fTransform (noise : ℚ → ℚ → ℚ) (off : ℚ) (drawing : List Point) : List Point :=
  drawing.map (transformPoint noise off)

/-- Fuel-indexed semantics of the JS loop header for (v = a; v < b; v += step):
the list of visited values, or none when the loop does not finish within the
given fuel. -/
def forLoop (a b step : ℚ) (fuel : ℕ) : Option (List ℚ) :=
  match fuel with
  | 0 => none
  | Nat.succ n =>
    if a < b then (forLoop (a + step) b step n).map (fun t => a :: t) else some []

/-- Grid centers enumerated by the nested loops of the dot grids, outer x inner
y, each axis starting at its origin plus half the step and advancing by the
step while strictly below its extent bound. -/
def gridCenters (ox oy ex ey step : ℚ) (fuel : ℕ) : Option (List (ℚ × ℚ)) :=
  match forLoop (ox + step / 2) ex step fuel, forLoop (oy + step / 2) ey step fuel with
  | some xs, some ys => some (xs.flatMap (fun x => ys.map (fun y => (x, y))))
  | _, _ => none

/-- Centers of the dotGridR loops, with the step g left as a parameter (gap is
a mutable global in the source): x from 512 + g/2 while x < 1024, y from g/2
while y < height / 3. -/
def dotGridRCenters (g : ℚ) (fuel : ℕ) : Option (List (ℚ × ℚ)) :=
  gridCenters 512 0 1024 (height / 3) g fuel

/-- Centers of the dotGridA and translateAToB loops: x from 512 + g/2 while
x < 1024, y from 512 + g/2 while y < 1024. -/
def dotGridACenters (g : ℚ) (fuel : ℕ) : Option (List (ℚ × ℚ)) :=
  gridCenters 512 512 1024 1024 g fuel

/-- The (center, diameter) pairs rendered by dotGridR. -/
def dotGridRDots (noise : ℚ → ℚ → ℚ) (off : ℚ) (fuel : ℕ) :
    Option (List ((ℚ × ℚ) × ℚ)) :=
  (dotGridRCenters gap fuel).map
    (List.map (fun c => (c, diameter (dotGridRSample noise off c.1 c.2))))

/-- The (center, diameter) pairs rendered by dotGridA. -/
def dotGridADots (noise : ℚ → ℚ → ℚ) (off : ℚ) (fuel : ℕ) :
    Option (List ((ℚ × ℚ) × ℚ)) :=
  (dotGridACenters gap fuel).map
    (List.map (fun c => (c, diameter (dotGridASample noise off c.1 c.2))))

/-- Per-cell body of translateAToB: newX = x + map(noiseValue, 0, 1, -10, 10),
newY = y + map(noiseValue, 0, 1, -10, 10). -/
def translatePoint (noise : ℚ → ℚ → ℚ) (off : ℚ) (c : ℚ × ℚ) : ℚ × ℚ :=
  let noiseValue := translateSample noise off c.1 c.2
  (c.1 + mapRange noiseValue 0 1 (-10) 10, c.2 + mapRange noiseValue 0 1 (-10) 10)

/-- The displaced points computed by translateAToB over the A grid. -/
def translateAToBPts (noise : ℚ → ℚ → ℚ) (off : ℚ) (fuel : ℕ) :
    Option (List (ℚ × ℚ)) :=
  (dotGridACenters gap fuel).map (List.map (translatePoint noise off))

/-- The two independently offset noise fields of the sketch. -/
inductive NoiseFieldId
  | R
  | A
  deriving DecidableEq

/-- Abstract operations performed by the mouseReleased handler, for the
temporal claims. -/
inductive Op
  | reseed (field : NoiseFieldId)
  | renderGrid (field : NoiseFieldId)
  | transformStrokeOp (pts : List Point)
  | transformGridOp (field : NoiseFieldId)
  deriving DecidableEq

/-- State effect and operation trace of dotGridR: it stores a fresh random
offset into offsetR (offsetR = random(1000)) and renders the R grid. -/
def dotGridRStep (rR : ℚ) (s : SketchState) : SketchState × List Op :=
  ({ s with offsetR := rR }, [Op.reseed NoiseFieldId.R, Op.renderGrid NoiseFieldId.R])

/-- State effect and operation trace of function f: it reads the drawing and
transforms it; no global is mutated. -/
def fStep (s : SketchState) : SketchState × List Op :=
  (s, [Op.transformStrokeOp s.drawing])

/-- State effect and operation trace of dotGridA: it stores a fresh random
offset into offsetA (offsetA = random(1000)) and renders the A grid. -/
def dotGridAStep (rA : ℚ) (s : SketchState) : SketchState × List Op :=
  ({ s with offsetA := rA }, [Op.reseed NoiseFieldId.A, Op.renderGrid NoiseFieldId.A])

/-- State effect and operation trace of translateAToB: it reads offsetA and
transforms the enumerated A grid; no global is mutated. -/
def translateAToBStep (s : SketchState) : SketchState × List Op :=
  (s, [Op.transformGridOp NoiseFieldId.A])

/-- The mouseReleased handler: dotGridR(); f(); dotGridA(); translateAToB().
The two random draws are passed in as parameters. -/
def mouseReleased (rR rA : ℚ) (s : SketchState) : SketchState × List Op :=
  let r1 := dotGridRStep rR s
  let r2 := fStep r1.1
  let r3 := dotGridAStep rA r2.1
  let r4 := translateAToBStep r3.1
  (r4.1, r1.2 ++ r2.2 ++ r3.2 ++ r4.2)

/-- resetLeftSide: clears the drawing array (drawing = []); no offset is
touched. -/
def resetLeftSide (s : SketchState) : SketchState :=
  { s with drawing := [] }

/-- With a non-positive step the loop guard for (v = a; v < b; v += step) never
becomes false once a < b, so the loop exhausts any amount of fuel. -/
theorem forLoop_nonpos_none (b step : ℚ) (hstep : step ≤ 0) :
    ∀ (fuel : ℕ) (a : ℚ), a < b → forLoop a b step fuel = none := by
  intro fuel
  induction fuel with
  | zero => intro a hab; rfl
  | succ n ih =>
    intro a hab
    have hab2 : a + step < b := by linarith
    simp [forLoop, hab, ih (a + step) hab2]

/-- A diameter divided back by the gap recovers the noise value. -/
theorem diameter_div_gap (n : ℚ) : diameter n / gap = n := by
  rw [diameter]
  exact mul_div_cancel_right₀ n (by norm_num [gap])

/-- Claim C1: for every input point and offset, function f computes a single
noise sample n, one scalar displacement d = map(n, 0, 1, -10, 10), and adds
that same scalar d to both coordinates, producing (x + d, y + d); in
particular the x displacement always equals the y displacement. -/
theorem C1_transform_equal_displacement :
    (∀ (noise : ℚ → ℚ → ℚ) (off : ℚ) (pts : List Point),
      fTransform noise off pts = pts.map (fun p =>
        let n := noise ((p.x + off) * xScale) ((p.y + off) * yScale)
        let d := mapRange n 0 1 (-10) 10
        Point.mk (p.x + d) (p.y + d)))
    ∧ ∀ (noise : ℚ → ℚ → ℚ) (off : ℚ) (p : Point),
        (transformPoint noise off p).x - p.x = (transformPoint noise off p).y - p.y := by
  constructor
  · intro noise off pts
    rfl
  · intro noise off p
    simp [transformPoint]

/-- Claim C2: in both the grid renderer and the stroke transformer the offset
is folded additively into each coordinate before multiplication by the scale
factor, and this differs from adding the offset after scaling. -/
theorem C2_offset_added_before_scaling :
    (∀ (noise : ℚ → ℚ → ℚ) (off x y : ℚ),
      dotGridRSample noise off x y = noise ((x + off) * xScale) ((y + off) * yScale))
    ∧ (∀ (noise : ℚ → ℚ → ℚ) (off : ℚ) (p : Point),
      fSample noise off p = noise ((p.x + off) * xScale) ((p.y + off) * yScale))
    ∧ (100 + 1 : ℚ) * xScale ≠ 100 * xScale + 1 := by
  refine ⟨fun _ _ _ _ => rfl, fun _ _ _ => rfl, ?_⟩
  norm_num [xScale]

/-- Claim C3: under the NoiseField contract every sampled noise value lies in
[0, 1), every derived diameter lies in [0, gap], and every coordinate
displacement lies in [-10, 10]. -/
theorem C3_range_invariants (noise : ℚ → ℚ → ℚ) (hn : NoiseInRange noise)
    (off x y : ℚ) (p : Point) :
    (0 ≤ dotGridRSample noise off x y ∧ dotGridRSample noise off x y < 1)
    ∧ (0 ≤ diameter (dotGridRSample noise off x y)
        ∧ diameter (dotGridRSample noise off x y) ≤ gap)
    ∧ (-10 ≤ mapRange (fSample noise off p) 0 1 (-10) 10
        ∧ mapRange (fSample noise off p) 0 1 (-10) 10 ≤ 10) := by
  obtain ⟨h0, h1⟩ := hn ((x + off) * xScale) ((y + off) * yScale)
  obtain ⟨g0, g1⟩ := hn ((p.x + off) * xScale) ((p.y + off) * yScale)
  refine ⟨⟨h0, h1⟩, ⟨?_, ?_⟩, ?_, ?_⟩
  · simp only [diameter, gap, dotGridRSample]
    nlinarith
  · simp only [diameter, gap, dotGridRSample]
    nlinarith
  · simp only [mapRange, fSample]
    norm_num
    nlinarith
  · simp only [mapRange, fSample]
    norm_num
    nlinarith

/-- Witness for C3 at a concrete noise function, offset and points. -/
theorem C3_range_invariants_witness :
    (0 ≤ dotGridRSample (fun _ _ => 1 / 2) 0 3 4
      ∧ dotGridRSample (fun _ _ => 1 / 2) 0 3 4 < 1)
    ∧ (0 ≤ diameter (dotGridRSample (fun _ _ => 1 / 2) 0 3 4)
        ∧ diameter (dotGridRSample (fun _ _ => 1 / 2) 0 3 4) ≤ gap)
    ∧ (-10 ≤ mapRange (fSample (fun _ _ => 1 / 2) 0 ⟨100, 100⟩) 0 1 (-10) 10
        ∧ mapRange (fSample (fun _ _ => 1 / 2) 0 ⟨100, 100⟩) 0 1 (-10) 10 ≤ 10) :=
  C3_range_invariants (fun _ _ => 1 / 2) (fun _ _ => by norm_num) 0 3 4 ⟨100, 100⟩

/-- Claim C4: the stroke transformer returns exactly one output point per
input point, in input order, including empty and singleton strokes. -/
theorem C4_length_preserved :
    ∀ (noise : ℚ → ℚ → ℚ) (off : ℚ) (pts : List Point),
      (fTransform noise off pts).length = pts.length := by
  intro noise off pts
  simp [fTransform]

/-- Claim C5: a grid with origin (0,0), extent (40,40) and step 20 enumerates
exactly the four centers (10,10), (10,30), (30,10), (30,30), by the half-step
inset convention of the source loops. -/
theorem C5_half_step_grid_scenario :
    gridCenters 0 0 40 40 20 8 = some [(10, 10), (10, 30), (30, 10), (30, 30)] := by
  norm_num [gridCenters, forLoop]

/-- Claim C6: reseeding one offset field changes only that field; samples that
depend only on the other offset are unchanged. -/
theorem C6_reseed_isolation :
    (∀ (rR : ℚ) (s : SketchState), (dotGridRStep rR s).1.offsetA = s.offsetA)
    ∧ (∀ (rA : ℚ) (s : SketchState), (dotGridAStep rA s).1.offsetR = s.offsetR)
    ∧ (∀ (rR : ℚ) (s : SketchState) (noise : ℚ → ℚ → ℚ) (x y : ℚ),
        dotGridASample noise (dotGridRStep rR s).1.offsetA x y
          = dotGridASample noise s.offsetA x y)
    ∧ (∀ (rA : ℚ) (s : SketchState) (noise : ℚ → ℚ → ℚ) (x y : ℚ),
        dotGridRSample noise (dotGridAStep rA s).1.offsetR x y
          = dotGridRSample noise s.offsetR x y) :=
  ⟨fun _ _ => rfl, fun _ _ => rfl, fun _ _ _ _ _ => rfl, fun _ _ _ _ _ => rfl⟩

/-- Claim C7 concerns the failing input gap = 0 (and negative gap): the grid
loops never terminate there, for any amount of fuel, instead of rejecting the
configuration. -/
theorem C7_nonpositive_step_never_terminates :
    ∀ fuel : ℕ, dotGridRCenters 0 fuel = none ∧ dotGridRCenters (-4) fuel = none := by
  intro fuel
  constructor
  · have h := forLoop_nonpos_none 1024 0 (by norm_num) fuel (512 + 0 / 2) (by norm_num)
    rw [dotGridRCenters, gridCenters, h]
  · have h := forLoop_nonpos_none 1024 (-4) (by norm_num) fuel (512 + (-4) / 2) (by norm_num)
    rw [dotGridRCenters, gridCenters, h]

/-- Claim C8: resetLeftSide empties the drawing and leaves both offsets
unchanged, and transforming the cleared stroke yields the empty sequence. -/
theorem C8_reset_clears_only_drawing :
    (∀ s : SketchState, (resetLeftSide s).drawing = []
      ∧ (resetLeftSide s).offsetR = s.offsetR
      ∧ (resetLeftSide s).offsetA = s.offsetA)
    ∧ ∀ (noise : ℚ → ℚ → ℚ) (off : ℚ) (s : SketchState),
        fTransform noise off (resetLeftSide s).drawing = [] :=
  ⟨fun _ => ⟨rfl, rfl, rfl⟩, fun _ _ _ => rfl⟩

/-- Claim C9: the mouseReleased handler performs, per field, exactly one
reseed followed by exactly one grid render and one transform, where the R
transform consumes the captured stroke and the A transform consumes the grid
enumeration. -/
theorem C9_mouse_released_trace :
    ∀ (rR rA : ℚ) (s : SketchState),
      (mouseReleased rR rA s).2
        = [Op.reseed NoiseFieldId.R, Op.renderGrid NoiseFieldId.R,
           Op.transformStrokeOp s.drawing,
           Op.reseed NoiseFieldId.A, Op.renderGrid NoiseFieldId.A,
           Op.transformGridOp NoiseFieldId.A]
      ∧ ((mouseReleased rR rA s).2.count (Op.reseed NoiseFieldId.R) = 1
        ∧ (mouseReleased rR rA s).2.count (Op.reseed NoiseFieldId.A) = 1)
      ∧ ((mouseReleased rR rA s).2.count (Op.renderGrid NoiseFieldId.R) = 1
        ∧ (mouseReleased rR rA s).2.count (Op.renderGrid NoiseFieldId.A) = 1)
      ∧ ((mouseReleased rR rA s).2.count (Op.transformStrokeOp s.drawing) = 1
        ∧ (mouseReleased rR rA s).2.count (Op.transformGridOp NoiseFieldId.A) = 1)
      ∧ (mouseReleased rR rA s).2.countP (fun o => match o with
            | Op.transformStrokeOp _ => true
            | _ => false) = 1 := by
  intro rR rA s
  have h : (mouseReleased rR rA s).2
      = [Op.reseed NoiseFieldId.R, Op.renderGrid NoiseFieldId.R,
         Op.transformStrokeOp s.drawing,
         Op.reseed NoiseFieldId.A, Op.renderGrid NoiseFieldId.A,
         Op.transformGridOp NoiseFieldId.A] := rfl
  refine ⟨h, ⟨?_, ?_⟩, ⟨?_, ?_⟩, ⟨?_, ?_⟩, ?_⟩ <;>
    simp [h, List.count_cons, List.countP_cons]

/-- Claim C10: within one pointer-up cycle translateAToB samples the noise at
exactly the same arguments as dotGridA (same offset, no reseed between them),
so the B line drawing is a transformation of precisely the field displayed in
A: each translated point is the A dot center displaced by the map image of
that dot's diameter divided back by the gap. -/
theorem C10_translate_uses_field_of_A :
    (∀ (noise : ℚ → ℚ → ℚ) (off x y : ℚ),
      translateSample noise off x y = dotGridASample noise off x y)
    ∧ (∀ (rR rA : ℚ) (s : SketchState),
        (translateAToBStep (dotGridAStep rA (fStep (dotGridRStep rR s).1).1).1).1.offsetA = rA
        ∧ (mouseReleased rR rA s).1.offsetA = rA)
    ∧ (∀ (noise : ℚ → ℚ → ℚ) (off : ℚ) (fuel : ℕ),
        translateAToBPts noise off fuel
          = (dotGridADots noise off fuel).map (List.map (fun cd =>
              (cd.1.1 + mapRange (cd.2 / gap) 0 1 (-10) 10,
               cd.1.2 + mapRange (cd.2 / gap) 0 1 (-10) 10)))) := by
  refine ⟨fun _ _ _ _ => rfl, fun _ _ _ => ⟨rfl, rfl⟩, ?_⟩
  intro noise off fuel
  cases h : dotGridACenters gap fuel with
  | none => simp [translateAToBPts, dotGridADots, h]
  | some cs =>
    simp only [translateAToBPts, dotGridADots, h, Option.map_some', List.map_map]
    refine congrArg some (List.map_congr_left ?_)
    intro c hc
    simp only [Function.comp, translatePoint, translateSample, dotGridASample,
      diameter_div_gap]

end RPS
